import Mathlib

/-!
Verification development for the EthMonitor repository (`src/monitor.js`).

The repository contains three near-identical monitor scripts:
* a push-mode monitor (WebSocket subscription, reconnect with backoff),
* a gated poll monitor (probes interacting with the alert-cooldown gate),
* a plain poll monitor (probes without the gate).

This file gives a shallow embedding of the stateful decision logic of those
scripts: the alert deduplication gate `shouldSendAlert` over the
`lastAlerts` map, the reference consensus resolver `getCanonicalBlock`,
the health probes (`checkChainId`, `checkSyncStatus`, `checkBlockConsistency`),
version parsing/comparison (`parseVersion`, `compareVersions`), the
one-shot aggregation `runChecks`, and the push-mode event loop with
`reconnect`.  External I/O (RPC calls, HTTP fetches, Telegram delivery)
is represented by passing the fetched values (or their failures, as
`Except`/`Option`) into the embedded functions; `Date.now()` is passed
explicitly as the `now` argument.  Notification delivery is modelled as
emission into a list (delivery failures in the source are caught and
ignored, so emission is the observable effect).
-/

namespace EthMonitor

/-- Tri-state probe status as used by the poll monitors
(the source only ever constructs these three). -/
inductive ProbeStatus where
  | OK
  | WARNING
  | ERROR
deriving DecidableEq, Repr

/-- A probe result: `{status, message}` as returned by each check. -/
structure ProbeResult where
  status : ProbeStatus
  message : String
deriving DecidableEq, Repr

/-- A notification handed to the Telegram channel: the source's
`sendTelegramAlert(message, severity)`.  The `message` field carries the
stable Markdown title line of the alert text; the dynamic detail lines
interpolate clock readings with JS float formatting (`toFixed`), which the
spec explicitly places out of scope ("formatting a message string ... is
mechanical I/O with no invariants worth specifying"). -/
structure Notification where
  message : String
  severity : String
deriving DecidableEq, Repr

/-- The `lastAlerts` map: alert key to last-fired timestamp (ms).
`this.lastAlerts = new Map()` is embedded as an association list looked up
by key. -/
abbrev AlertState := List (String × Nat)

/-- `Map.prototype.get`: the binding of `k`, or `none`. -/
def mapGet (s : AlertState) (k : String) : Option Nat :=
  match s with
  | [] => none
  | (a, v) :: t => if a = k then some v else mapGet t k

/-- `Map.prototype.delete`: remove every binding of `k`. -/
def mapDelete (s : AlertState) (k : String) : AlertState :=
  s.filter (fun p => p.1 != k)

/-- `Map.prototype.set`: bind `k` to `v` (insertion order is irrelevant to
lookups, so the fresh binding is placed in front). -/
def mapSet (s : AlertState) (k : String) (v : Nat) : AlertState :=
  (k, v) :: mapDelete s k

/-- `shouldSendAlert(alertKey, cooldownMinutes)` from `src/monitor.js:78-92`:

```js
const lastSent = this.lastAlerts.get(alertKey);
if (!lastSent) { this.lastAlerts.set(alertKey, Date.now()); return true; }
const minutesSinceLastAlert = (Date.now() - lastSent) / 1000 / 60;
if (minutesSinceLastAlert >= cooldownMinutes) {
  this.lastAlerts.set(alertKey, Date.now()); return true;
}
return false;
```

`now` is the value of `Date.now()` during the call.  JS `!lastSent` is
also true when the stored timestamp is the falsy number `0`, hence the
explicit `lastSent = 0` branch.  Every call site passes an integer
`cooldownMinutes` (10, 15, 30, 60, 360; default 60), for which
`(Date.now() - lastSent) / 1000 / 60 >= cooldownMinutes` is exactly
`Date.now() - lastSent >= cooldownMinutes * 60000`; the embedding uses
the multiplied-out form, which is exact in integer arithmetic. -/
def shouldSendAlert (s : AlertState) (alertKey : String) (cooldownMinutes : Int)
    (now : Nat) : Bool × AlertState :=
  match mapGet s alertKey with
  | none => (true, mapSet s alertKey now)
  | some lastSent =>
      if lastSent = 0 then
        (true, mapSet s alertKey now)
      else if cooldownMinutes * 60000 ≤ (now : Int) - (lastSent : Int) then
        (true, mapSet s alertKey now)
      else
        (false, s)

/-- `this.lastAlerts.delete(key)` as performed by every probe when the
monitored condition is healthy (e.g. `src/monitor.js:677-679`). -/
def clearAlert (s : AlertState) (k : String) : AlertState :=
  mapDelete s k

/-- One interaction of a probe with the alert gate.  Every notification
site in the source has the shape
`if (await this.shouldSendAlert(key, cd)) await this.sendTelegramAlert(...)`
and every healthy branch has the shape `this.lastAlerts.delete(key)`;
these are the only two operations that touch `lastAlerts`. -/
inductive GateEvent where
  | check (key : String) (cooldownMinutes : Int) (now : Nat)
  | clear (key : String)

/-- Run one gate interaction over (alert state, notification log).  The log
records `(key, now)` for every notification actually emitted. -/
def stepEv (p : AlertState × List (String × Nat)) (e : GateEvent) :
    AlertState × List (String × Nat) :=
  match e with
  | .check key c now =>
      ((shouldSendAlert p.1 key c now).2,
        if (shouldSendAlert p.1 key c now).1 then (key, now) :: p.2 else p.2)
  | .clear key => (mapDelete p.1 key, p.2)

/-- A whole monitoring run: the gate interactions of all probe cycles in
order, starting from the empty map (`new Map()`) and an empty log. -/
def runEvents (evs : List GateEvent) : AlertState × List (String × Nat) :=
  evs.foldl stepEv ([], [])

/-- The AlertState/log invariant: each stored timestamp is exactly the
time of the most recent emitted notification for its key. -/
def GateInv (p : AlertState × List (String × Nat)) : Prop :=
  ∀ k t, mapGet p.1 k = some t →
    (p.2.filter (fun e => e.1 == k)).head? = some (k, t)

/-- Settled promise outcomes (`Except`) compared for equality. -/
instance exceptDecEq {ε α : Type} [DecidableEq ε] [DecidableEq α] :
    DecidableEq (Except ε α) := fun x y =>
  match x, y with
  | .ok a, .ok b => if h : a = b then isTrue (by rw [h]) else isFalse (by simp [h])
  | .error a, .error b => if h : a = b then isTrue (by rw [h]) else isFalse (by simp [h])
  | .ok _, .error _ => isFalse (by simp)
  | .error _, .ok _ => isFalse (by simp)

/-! ## Reference consensus resolver -/

/-- The fulfilled results of the reference height queries
(`blockNumbers.filter(r => r.status === 'fulfilled').map(r => r.value)`). -/
def validBlocks (results : List (Except String Int)) : List Int :=
  results.filterMap Except.toOption

/-- `getCanonicalBlock()` from `src/monitor.js:185-199` / `602-618`:
collect the fulfilled reference heights; throw if none; otherwise
`Math.max(...validBlocks)`.  Each element of `results` is the settled
outcome of one reference provider's `getBlockNumber()`. -/
def getCanonicalBlock (results : List (Except String Int)) : Except String Int :=
  match validBlocks results with
  | [] => .error "Failed to get canonical block from any reference RPC"
  | b :: bs => .ok (bs.foldl max b)

/-! ## Constants (`src/monitor.js:28-33`, repeated in each variant) -/

def EXPECTED_CHAIN_ID : Int := 1
def MAX_BLOCK_DELAY : Int := 10
def BLOCK_TIME_THRESHOLD_MS : Int := 30000
def MAX_PEER_COUNT_LOW : ℚ := 10
def MAX_MEMORY_MB : Int := 16000
def VERSION_CHECK_INTERVAL_HOURS : Int := 6

/-! ## Poll-monitor probes (gated variant, `src/monitor.js:620-792`) -/

/-- `checkChainId()` from `src/monitor.js:620-639` (gated variant).
`chainId` is the network id reported by the monitored provider. -/
def checkChainId (st : AlertState) (now : Nat) (chainId : Int) :
    ProbeResult × AlertState × List Notification :=
  if chainId ≠ EXPECTED_CHAIN_ID then
    let r := shouldSendAlert st "wrong_chain_id" 60 now
    (⟨.ERROR, s!"Wrong chain ID: expected {EXPECTED_CHAIN_ID}, got {chainId}"⟩,
      r.2, if r.1 then [⟨"*Wrong Chain ID Detected*", "critical"⟩] else [])
  else
    (⟨.OK, s!"Chain ID: {chainId}"⟩, mapDelete st "wrong_chain_id", [])

/-- `checkSyncStatus()` from `src/monitor.js:641-696` (gated variant).
`monitoredResult` is the outcome of the monitored node's
`getBlockNumber()`; `refResults` the settled reference queries fed to
`getCanonicalBlock`.  Any failure lands in the `catch` branch. -/
def checkSyncStatus (st : AlertState) (now : Nat)
    (monitoredResult : Except String Int) (refResults : List (Except String Int)) :
    ProbeResult × AlertState × List Notification :=
  match monitoredResult, getCanonicalBlock refResults with
  | .ok monitoredBlock, .ok canonicalBlock =>
      let blockDelay := canonicalBlock - monitoredBlock
      if blockDelay > MAX_BLOCK_DELAY then
        let r := shouldSendAlert st "out_of_sync" 60 now
        (⟨.WARNING, s!"Node is {blockDelay} blocks behind (monitored: {monitoredBlock}, canonical: {canonicalBlock})"⟩,
          r.2, if r.1 then [⟨"*Node Out of Sync*", "critical"⟩] else [])
      else if blockDelay < -5 then
        let aheadBy := blockDelay.natAbs
        let r := shouldSendAlert st "ahead_of_chain" 60 now
        (⟨.WARNING, s!"Node reports block {monitoredBlock} but canonical is {canonicalBlock} (ahead by {aheadBy})"⟩,
          r.2, if r.1 then [⟨"*Node Reporting Unusual Block Height*", "warning"⟩] else [])
      else
        (⟨.OK, s!"In sync: block {monitoredBlock} ({blockDelay} blocks behind)"⟩,
          mapDelete (mapDelete st "out_of_sync") "ahead_of_chain", [])
  | .error e, _ =>
      let r := shouldSendAlert st "sync_check_failed" 60 now
      (⟨.ERROR, s!"Failed to check sync status: {e}"⟩, r.2,
        if r.1 then [⟨"*Sync Check Failed*", "critical"⟩] else [])
  | .ok _, .error e =>
      let r := shouldSendAlert st "sync_check_failed" 60 now
      (⟨.ERROR, s!"Failed to check sync status: {e}"⟩, r.2,
        if r.1 then [⟨"*Sync Check Failed*", "critical"⟩] else [])

/-- `checkSyncStatus()` from `src/monitor.js:928-956` (plain variant,
no gate).  Note its ahead-of-chain threshold is `blockDelay < 0`,
not `< -5`. -/
def checkSyncStatusPlain (monitoredResult : Except String Int)
    (refResults : List (Except String Int)) : ProbeResult :=
  match monitoredResult, getCanonicalBlock refResults with
  | .ok monitoredBlock, .ok canonicalBlock =>
      let blockDelay := canonicalBlock - monitoredBlock
      if blockDelay > MAX_BLOCK_DELAY then
        ⟨.WARNING, s!"Node is {blockDelay} blocks behind (monitored: {monitoredBlock}, canonical: {canonicalBlock})"⟩
      else if blockDelay < 0 then
        let aheadBy := blockDelay.natAbs
        ⟨.WARNING, s!"Node reports block {monitoredBlock} but canonical is {canonicalBlock} (ahead by {aheadBy})"⟩
      else
        ⟨.OK, s!"In sync: block {monitoredBlock} ({blockDelay} blocks behind)"⟩
  | .error e, _ => ⟨.ERROR, s!"Failed to check sync status: {e}"⟩
  | .ok _, .error e => ⟨.ERROR, s!"Failed to check sync status: {e}"⟩

/-- The mismatch message of `checkBlockConsistency` (`src/monitor.js:737`),
reporting the examined block number and both hashes. -/
def blockHashMismatchMessage (blockNumber : Int)
    (monitoredHash referenceHash : String) : String :=
  s!"Block hash mismatch at {blockNumber}! Monitored: {monitoredHash}, Canonical: {referenceHash}"

/-- `checkBlockConsistency()` from `src/monitor.js:698-754` (gated
variant).  `monitored` is the outcome of fetching the monitored tip and
the hash of the block 5 behind it (`blockNumber = monitoredBlock - 5`);
`refHashes` are the settled same-height hash queries to the references.
The hash comparison uses only `validReferenceBlocks[0]`, the first
fulfilled reference. -/
def checkBlockConsistency (st : AlertState) (now : Nat)
    (monitored : Except String (Int × String))
    (refHashes : List (Except String String)) :
    ProbeResult × AlertState × List Notification :=
  match monitored with
  | .error e => (⟨.ERROR, s!"Failed to check block consistency: {e}"⟩, st, [])
  | .ok (monitoredBlock, monitoredHash) =>
      let blockNumber := monitoredBlock - 5
      match refHashes.filterMap Except.toOption with
      | [] =>
          (⟨.WARNING, "Could not verify block consistency with reference nodes"⟩,
            st, [])
      | referenceHash :: _ =>
          if monitoredHash ≠ referenceHash then
            let r := shouldSendAlert st "block_hash_mismatch" 30 now
            (⟨.ERROR, blockHashMismatchMessage blockNumber monitoredHash referenceHash⟩,
              r.2, if r.1 then [⟨"*Block Hash Mismatch - Possible Fork!*", "critical"⟩] else [])
          else
            (⟨.OK, s!"Block consistency verified (block {blockNumber})"⟩,
              mapDelete st "block_hash_mismatch", [])

/-! ## One-shot aggregation (`runChecks`, `src/monitor.js:794-839` and
`1030-1074`) -/

/-- `result.status === 'ERROR'` for a settled check outcome, where a
rejected check (`catch` in the loop) also counts as an error. -/
def resultHasError (r : Except String ProbeResult) : Bool :=
  match r with
  | .error _ => true
  | .ok p => p.status == .ERROR

/-- `result.status === 'WARNING'` for a settled check outcome. -/
def resultHasWarning (r : Except String ProbeResult) : Bool :=
  match r with
  | .error _ => false
  | .ok p => p.status == .WARNING

/-- The aggregation tail of `runChecks()`: the overall status line and the
exit code, computed from the settled outcomes of the four checks (in the
gated variant the code is returned and the one-shot CLI path exits with
it; in the plain variant `process.exit` is called with it directly). -/
def runChecks (results : List (Except String ProbeResult)) : String × Nat :=
  let hasErrors := results.any resultHasError
  let hasWarnings := results.any resultHasWarning
  if hasErrors then ("STATUS: CRITICAL - Errors detected", 1)
  else if hasWarnings then ("STATUS: WARNING - Some checks raised warnings", 0)
  else ("STATUS: HEALTHY - All checks passed", 0)

/-! ## Version parsing and comparison (`src/monitor.js:144-183`) -/

/-- The parsed form returned by `parseVersion`:
`{major, minor, patch, string}`. -/
structure Version where
  major : Nat
  minor : Nat
  patch : Nat
  string : String
deriving DecidableEq, Repr

/-- `parseInt` on a run of decimal digits. -/
def digitsToNat (cs : List Char) : Nat :=
  cs.foldl (fun n c => 10 * n + (c.toNat - 48)) 0

/-- Try to match the regex `(\d+)\.(\d+)\.(\d+)` at the head of `cs`.
The digit groups are maximal digit runs; backtracking inside a group
cannot help this pattern (a shortened group would put a digit where the
literal `.` must match), so maximal munch is equivalent to the JS
engine's behaviour. -/
def matchVersionAt (cs : List Char) : Option (Nat × Nat × Nat) :=
  let p1 := cs.span Char.isDigit
  if p1.1 = [] then none
  else
    match p1.2 with
    | '.' :: r2 =>
        let p2 := r2.span Char.isDigit
        if p2.1 = [] then none
        else
          match p2.2 with
          | '.' :: r4 =>
              let p3 := r4.span Char.isDigit
              if p3.1 = [] then none
              else some (digitsToNat p1.1, digitsToNat p2.1, digitsToNat p3.1)
          | _ => none
    | _ => none

/-- The regex search `versionString.match(/(\d+)\.(\d+)\.(\d+)/)`:
try each start position left to right. -/
def findVersionTriple : List Char → Option (Nat × Nat × Nat)
  | [] => none
  | c :: cs =>
      match matchVersionAt (c :: cs) with
      | some v => some v
      | none => findVersionTriple cs

/-- `parseVersion(versionString)` from `src/monitor.js:144-154`: regex
search for a `major.minor.patch` triple anywhere in the string;
`null` (here `none`) when absent. -/
def parseVersion (versionString : String) : Option Version :=
  match findVersionTriple versionString.data with
  | none => none
  | some (a, b, c) => some ⟨a, b, c, versionString⟩

/-- The result object of `compareVersions`: `outdated` is `true`, `false`
or `null`; `severity` is present only on the outdated branches. -/
structure VersionComparison where
  outdated : Option Bool
  severity : Option String
  message : String
deriving DecidableEq, Repr

/-- `compareVersions(current, latest)` from `src/monitor.js:156-183`. -/
def compareVersions (current latest : String) : VersionComparison :=
  match parseVersion current, parseVersion latest with
  | none, _ => ⟨none, none, "Unable to parse versions"⟩
  | some _, none => ⟨none, none, "Unable to parse versions"⟩
  | some curr, some lat =>
      if curr.major < lat.major then ⟨some true, some "critical", "Major version behind"⟩
      else if curr.major > lat.major then ⟨some false, none, "Ahead of latest"⟩
      else if curr.minor < lat.minor then ⟨some true, some "warning", "Minor version behind"⟩
      else if curr.minor > lat.minor then ⟨some false, none, "Ahead of latest"⟩
      else if curr.patch < lat.patch then ⟨some true, some "info", "Patch version behind"⟩
      else ⟨some false, none, "Up to date"⟩

/-- Modelled from the spec: "strict lexical triple comparison (major,
minor, patch), each compared as integers, left-to-right, first difference
decides".  Used to compare the code's decision against the spec's rule. -/
def versionOutdated (curr lat : Version) : Bool :=
  decide (curr.major < lat.major) ||
    (decide (curr.major = lat.major) &&
      (decide (curr.minor < lat.minor) ||
        (decide (curr.minor = lat.minor) && decide (curr.patch < lat.patch))))

/-- The alert guard in `checkVersions` (`src/monitor.js:316`, `349`):
a notification can fire only when `comparison.outdated === true`. -/
def versionAlertFires (c : VersionComparison) : Bool :=
  c.outdated == some true

/-! ## Push-mode monitor (`src/monitor.js:35-521`) -/

/-- The mutable fields of the push-mode `EthMonitor` instance
(`src/monitor.js:51-58`). -/
structure MonitorState where
  lastAlerts : AlertState
  lastBlockTime : Nat
  lastBlockNumber : Int
  lastMetricsCheck : Nat
  lastVersionCheck : Nat
  isHealthy : Bool
  reconnectAttempts : Nat
deriving DecidableEq, Repr

/-- `this.maxReconnectAttempts = 10` (`src/monitor.js:58`). -/
def maxReconnectAttempts : Nat := 10

/-- The guarded notification pattern
`if (await this.shouldSendAlert(key, cd)) await this.sendTelegramAlert(n)`. -/
def gatedNotify (st : MonitorState) (key : String) (cooldownMinutes : Int)
    (now : Nat) (n : Notification) : MonitorState × List Notification :=
  let r := shouldSendAlert st.lastAlerts key cooldownMinutes now
  ({ st with lastAlerts := r.2 }, if r.1 then [n] else [])

/-- The two metrics consumed by `checkMetrics`
(`network_connected_peers`, `process_resident_memory_bytes`); a field
is `none` when absent from the parsed exposition text. -/
structure MetricsSample where
  network_connected_peers : Option ℚ
  process_resident_memory_bytes : Option ℚ
deriving DecidableEq, Repr

/-- `handleNewBlock(blockNumber, blockHash)` from `src/monitor.js:201-244`:
block-stall check, canonical-sync check, then bookkeeping updates. -/
def handleNewBlock (st : MonitorState) (blockNumber : Int) (now : Nat)
    (refResults : List (Except String Int)) : MonitorState × List Notification :=
  let timeSinceLastBlock : Int := (now : Int) - (st.lastBlockTime : Int)
  let r1 :=
    if timeSinceLastBlock > BLOCK_TIME_THRESHOLD_MS then
      gatedNotify st "block_stall" 10 now ⟨"*Block Production Stalled*", "critical"⟩
    else
      ({ st with lastAlerts := mapDelete st.lastAlerts "block_stall" }, ([] : List Notification))
  let r2 :=
    match getCanonicalBlock refResults with
    | .ok canonicalBlock =>
        if canonicalBlock - blockNumber > MAX_BLOCK_DELAY then
          gatedNotify r1.1 "out_of_sync" 15 now ⟨"*Node Out of Sync*", "critical"⟩
        else
          ({ r1.1 with lastAlerts := mapDelete r1.1.lastAlerts "out_of_sync" }, ([] : List Notification))
    | .error _ => (r1.1, [])
  ({ r2.1 with lastBlockTime := now, lastBlockNumber := blockNumber, isHealthy := true },
    r1.2 ++ r2.2)

/-- `checkMetrics()` from `src/monitor.js:246-293`.  `metrics` is the
fetch outcome (`none` = fetch/parse failure); `metricsConfigured`
reflects `ETH_EXECUTION_METRICS`. -/
def checkMetrics (st : MonitorState) (now : Nat) (intervalSec : Nat)
    (metricsConfigured : Bool) (metrics : Option MetricsSample) :
    MonitorState × List Notification :=
  if (now : Int) - (st.lastMetricsCheck : Int) < (intervalSec : Int) * 1000 then (st, [])
  else
    let st1 := { st with lastMetricsCheck := now }
    if !metricsConfigured then (st1, [])
    else
      match metrics with
      | none =>
          gatedNotify st1 "reth_metrics_unavailable" 60 now
            ⟨"*Reth Metrics Unavailable*", "warning"⟩
      | some m =>
          let st2 := { st1 with lastAlerts := mapDelete st1.lastAlerts "reth_metrics_unavailable" }
          let r1 :=
            match m.network_connected_peers with
            | none => (st2, ([] : List Notification))
            | some peers =>
                if peers < MAX_PEER_COUNT_LOW then
                  gatedNotify st2 "low_peers" 30 now ⟨"*Low Peer Count*", "warning"⟩
                else ({ st2 with lastAlerts := mapDelete st2.lastAlerts "low_peers" }, [])
          let r2 :=
            match m.process_resident_memory_bytes with
            | none => (r1.1, ([] : List Notification))
            | some bytes =>
                let memoryMB : Int := (bytes / 1024 / 1024).floor
                if memoryMB > MAX_MEMORY_MB then
                  gatedNotify r1.1 "high_memory" 60 now ⟨"*High Memory Usage*", "warning"⟩
                else ({ r1.1 with lastAlerts := mapDelete r1.1.lastAlerts "high_memory" }, [])
          (r2.1, r1.2 ++ r2.2)

/-- One client's branch of `checkVersions`: compare the extracted current
version against the latest release and gate the "update available" alert.
`currentVersion` is `none` when the RPC call failed or the banner regex
did not match; `latestVersion` is `none` when the release fetch threw
(both cases fall through with no state change, matching the source's
`catch`/missed-`if`). -/
def checkClientVersion (st : MonitorState) (now : Nat) (alertKey : String)
    (title : String) (currentVersion latestVersion : Option String) :
    MonitorState × List Notification :=
  match currentVersion, latestVersion with
  | some cur, some latest =>
      let comparison := compareVersions cur latest
      if comparison.outdated = some true then
        gatedNotify st alertKey 360 now ⟨title, comparison.severity.getD "warning"⟩
      else
        ({ st with lastAlerts := mapDelete st.lastAlerts alertKey }, [])
  | _, _ => (st, [])

/-- `checkVersions()` from `src/monitor.js:295-367`: rate-limited to one
run per `VERSION_CHECK_INTERVAL_HOURS`, then the Reth and Lighthouse
branches. -/
def checkVersions (st : MonitorState) (now : Nat)
    (rethCurrent rethLatest lighthouseCurrent lighthouseLatest : Option String) :
    MonitorState × List Notification :=
  if (now : Int) - (st.lastVersionCheck : Int) < VERSION_CHECK_INTERVAL_HOURS * 3600000 then
    (st, [])
  else
    let st1 := { st with lastVersionCheck := now }
    let r1 := checkClientVersion st1 now "reth_outdated" "*Reth Update Available*"
      rethCurrent rethLatest
    let r2 := checkClientVersion r1.1 now "lighthouse_outdated" "*Lighthouse Update Available*"
      lighthouseCurrent lighthouseLatest
    (r2.1, r1.2 ++ r2.2)

/-- `checkConsensusHealth()` from `src/monitor.js:445-471`.  `health` is
the `GET /eth/v1/node/health` outcome: `ok status` or `error` when
unreachable. -/
def checkConsensusHealth (st : MonitorState) (now : Nat)
    (consensusConfigured : Bool) (health : Except String Nat) :
    MonitorState × List Notification :=
  if !consensusConfigured then (st, [])
  else
    match health with
    | .ok status =>
        let isSynced := status == 200
        let isSyncing := status == 206
        if !isSynced && !isSyncing then
          gatedNotify st "consensus_not_synced" 30 now
            ⟨"*Consensus Client Not Synced*", "critical"⟩
        else
          ({ st with lastAlerts := mapDelete st.lastAlerts "consensus_not_synced" }, [])
    | .error _ =>
        gatedNotify st "consensus_down" 30 now
          ⟨"*Consensus Client Unreachable*", "critical"⟩

/-- The heartbeat interval body (`src/monitor.js:507-519`). -/
def heartbeatCheck (st : MonitorState) (now : Nat) :
    MonitorState × List Notification :=
  if (now : Int) - (st.lastBlockTime : Int) > 60000 then
    gatedNotify st "no_blocks" 15 now ⟨"*No Blocks Received*", "critical"⟩
  else (st, [])

/-- The `ws.on('error')` handler body (`src/monitor.js:390-397`). -/
def wsErrorHandler (st : MonitorState) (now : Nat) :
    MonitorState × List Notification :=
  gatedNotify st "ws_error" 30 now ⟨"*WebSocket Connection Error*", "critical"⟩

/-- What a push-mode event handler does to the process after its state
effects: keep running, schedule a reconnection attempt after a delay, or
terminate with an exit code. -/
inductive PushAction where
  | cont
  | scheduleReconnect (delayMs : Nat)
  | exitProcess (code : Nat)
deriving DecidableEq, Repr

/-- `reconnect()` from `src/monitor.js:417-443`: on exhausted budget,
send one final critical notification and `process.exit(1)`; otherwise
increment the counter and schedule `setupWebSocketConnection` after
`Math.min(1000 * Math.pow(2, this.reconnectAttempts), 60000)` ms. -/
def reconnect (st : MonitorState) : MonitorState × List Notification × PushAction :=
  if maxReconnectAttempts ≤ st.reconnectAttempts then
    (st,
      [⟨"*Monitor Connection Failed*\n\nFailed to reconnect after " ++
          toString maxReconnectAttempts ++ " attempts", "critical"⟩],
      .exitProcess 1)
  else
    let attempts := st.reconnectAttempts + 1
    let delay := min (1000 * 2 ^ attempts) 60000
    ({ st with reconnectAttempts := attempts }, [], .scheduleReconnect delay)

/-- The asynchronous events of the push-mode monitor, with the external
data each handler consumes.  A `newBlock` runs `handleNewBlock`, then
`checkMetrics`, then `checkVersions` (`src/monitor.js:376-385`);
`consensusTick` and `heartbeatTick` are the two `setInterval` bodies;
`wsClosed` covers both the `close` handler and a failed
`setupWebSocketConnection`, the two callers of `reconnect()`. -/
inductive PushEvent where
  | newBlock (blockNumber : Int) (now : Nat) (refResults : List (Except String Int))
      (metricsIntervalSec : Nat) (metricsConfigured : Bool) (metrics : Option MetricsSample)
      (rethCurrent rethLatest lighthouseCurrent lighthouseLatest : Option String)
  | consensusTick (now : Nat) (consensusConfigured : Bool) (health : Except String Nat)
  | heartbeatTick (now : Nat)
  | wsError (now : Nat)
  | wsClosed

/-- One push-mode event dispatch.  Only `reconnect` (via `wsClosed`) can
produce anything other than `PushAction.cont`: no handler body contains a
`process.exit` call. -/
def pushStep (st : MonitorState) (e : PushEvent) :
    MonitorState × List Notification × PushAction :=
  match e with
  | .newBlock bn now refs mInt mCfg metrics rc rl lc ll =>
      let r1 := handleNewBlock st bn now refs
      let r2 := checkMetrics r1.1 now mInt mCfg metrics
      let r3 := checkVersions r2.1 now rc rl lc ll
      (r3.1, r1.2 ++ r2.2 ++ r3.2, .cont)
  | .consensusTick now cfg health =>
      let r := checkConsensusHealth st now cfg health
      (r.1, r.2, .cont)
  | .heartbeatTick now =>
      let r := heartbeatCheck st now
      (r.1, r.2, .cont)
  | .wsError now =>
      let r := wsErrorHandler st now
      (r.1, r.2, .cont)
  | .wsClosed => reconnect st

end EthMonitor

namespace EthMonitor

theorem mapGet_mapDelete_self (s : AlertState) (k : String) :
    mapGet (mapDelete s k) k = none := by
  induction s with
  | nil => rfl
  | cons p t ih =>
      obtain ⟨a, v⟩ := p
      by_cases h : a = k
      · simpa [mapDelete, List.filter_cons, h] using ih
      · simpa [mapDelete, List.filter_cons, h, mapGet] using ih

theorem mapGet_mapDelete_ne (s : AlertState) (k k' : String) (h : k' ≠ k) :
    mapGet (mapDelete s k) k' = mapGet s k' := by
  induction s with
  | nil => rfl
  | cons p t ih =>
      obtain ⟨a, v⟩ := p
      by_cases ha : a = k
      · subst ha
        simpa [mapDelete, List.filter_cons, mapGet, Ne.symm h] using ih
      · by_cases ha' : a = k'
        · subst ha'
          simp [mapDelete, List.filter_cons, ha, mapGet]
        · simpa [mapDelete, List.filter_cons, ha, mapGet, ha'] using ih

theorem mapGet_mapSet_self (s : AlertState) (k : String) (v : Nat) :
    mapGet (mapSet s k v) k = some v := by
  simp [mapSet, mapGet]

theorem mapGet_mapSet_ne (s : AlertState) (k k' : String) (v : Nat) (h : k' ≠ k) :
    mapGet (mapSet s k v) k' = mapGet s k' := by
  simp [mapSet, mapGet, Ne.symm h, mapGet_mapDelete_ne s k k' h]

/-- When the gate fires, it stores the current timestamp under the key. -/
theorem shouldSendAlert_fire_state (s : AlertState) (k : String) (c : Int) (now : Nat)
    (h : (shouldSendAlert s k c now).1 = true) :
    (shouldSendAlert s k c now).2 = mapSet s k now := by
  unfold shouldSendAlert at h ⊢
  cases hl : mapGet s k with
  | none => simp [hl]
  | some t =>
      simp only [hl] at h ⊢
      split_ifs at h ⊢ <;> simp_all

/-- When the gate suppresses, it leaves the map untouched. -/
theorem shouldSendAlert_suppress_state (s : AlertState) (k : String) (c : Int) (now : Nat)
    (h : (shouldSendAlert s k c now).1 = false) :
    (shouldSendAlert s k c now).2 = s := by
  unfold shouldSendAlert at h ⊢
  cases hl : mapGet s k with
  | none => simp [hl] at h
  | some t =>
      simp only [hl] at h ⊢
      split_ifs at h ⊢
      simp_all

end EthMonitor

namespace EthMonitor

/-! ## Claim theorems: the alert gate (C1, C2, C10) -/

/-- Claim C1: for every alert key `k` and every cooldown `c`, calling
`shouldSendAlert(k, c)` twice within `c` minutes yields `(true, false)`,
and a third call after at least `c` minutes have elapsed since the first
yields `true` again, with the stored timestamp refreshed on each `true`
result.  The calls happen at clock readings `t0 < t1-within-cooldown` and
`t2` at least `c` minutes after `t0`; "no entry for `k`" is the state in
which the first call can fire. -/
theorem shouldSendAlert_twice_then_refire
    (s : AlertState) (k : String) (c : Int) (t0 t1 t2 : Nat)
    (h0 : mapGet s k = none) (ht0 : 0 < t0)
    (h01 : (t1 : Int) - (t0 : Int) < c * 60000)
    (h02 : c * 60000 ≤ (t2 : Int) - (t0 : Int)) :
    (shouldSendAlert s k c t0).1 = true ∧
    mapGet (shouldSendAlert s k c t0).2 k = some t0 ∧
    (shouldSendAlert (shouldSendAlert s k c t0).2 k c t1).1 = false ∧
    (shouldSendAlert (shouldSendAlert (shouldSendAlert s k c t0).2 k c t1).2 k c t2).1 = true ∧
    mapGet (shouldSendAlert (shouldSendAlert (shouldSendAlert s k c t0).2 k c t1).2 k c t2).2 k
      = some t2 := by
  have e1 : shouldSendAlert s k c t0 = (true, mapSet s k t0) := by
    simp [shouldSendAlert, h0]
  have g1 : mapGet (mapSet s k t0) k = some t0 := mapGet_mapSet_self s k t0
  have e2 : shouldSendAlert (mapSet s k t0) k c t1 = (false, mapSet s k t0) := by
    simp only [shouldSendAlert, g1]
    rw [if_neg (by omega : ¬ t0 = 0),
      if_neg (by omega : ¬ c * 60000 ≤ (t1 : Int) - (t0 : Int))]
  have e3 : shouldSendAlert (mapSet s k t0) k c t2 = (true, mapSet (mapSet s k t0) k t2) := by
    simp only [shouldSendAlert, g1]
    rw [if_neg (by omega : ¬ t0 = 0), if_pos h02]
  refine ⟨by rw [e1], by rw [e1]; exact g1, by rw [e1, e2], ?_, ?_⟩
  · rw [e1]
    show (shouldSendAlert (shouldSendAlert (mapSet s k t0) k c t1).2 k c t2).1 = true
    rw [e2]
    show (shouldSendAlert (mapSet s k t0) k c t2).1 = true
    rw [e3]
  · rw [e1]
    show mapGet (shouldSendAlert (shouldSendAlert (mapSet s k t0) k c t1).2 k c t2).2 k = some t2
    rw [e2]
    show mapGet (shouldSendAlert (mapSet s k t0) k c t2).2 k = some t2
    rw [e3]
    exact mapGet_mapSet_self _ k t2

/-- Witness for C1 at key `out_of_sync`, cooldown 15 min, calls at
`t0 = 60000`, `t1 = 120000` (1 min later) and `t2 = 1000000`
(more than 15 min after `t0`). -/
theorem shouldSendAlert_twice_then_refire_witness :
    (shouldSendAlert [] "out_of_sync" 15 60000).1 = true ∧
    mapGet (shouldSendAlert [] "out_of_sync" 15 60000).2 "out_of_sync" = some 60000 ∧
    (shouldSendAlert (shouldSendAlert [] "out_of_sync" 15 60000).2 "out_of_sync" 15 120000).1
      = false ∧
    (shouldSendAlert (shouldSendAlert (shouldSendAlert [] "out_of_sync" 15 60000).2
      "out_of_sync" 15 120000).2 "out_of_sync" 15 1000000).1 = true ∧
    mapGet (shouldSendAlert (shouldSendAlert (shouldSendAlert [] "out_of_sync" 15 60000).2
      "out_of_sync" 15 120000).2 "out_of_sync" 15 1000000).2 "out_of_sync" = some 1000000 :=
  shouldSendAlert_twice_then_refire [] "out_of_sync" 15 60000 120000 1000000
    (by decide) (by decide) (by decide) (by decide)

/-- Claim C2: deleting a key's entry (`clear`, performed by a probe when
the condition is healthy) followed immediately by `shouldSendAlert(k, c)`
yields `true`, for every prior state, key, cooldown and clock reading —
in particular regardless of how recently the key last fired. -/
theorem clearAlert_then_shouldSendAlert_fires
    (s : AlertState) (k : String) (c : Int) (now : Nat) :
    (shouldSendAlert (clearAlert s k) k c now).1 = true := by
  simp [shouldSendAlert, clearAlert, mapGet_mapDelete_self]

/-- Claim C10: whenever `shouldSendAlert(k, c)` returns `false`, the
alert-state map is left completely unchanged, so a suppressed call never
extends the cooldown window. -/
theorem shouldSendAlert_suppressed_frame
    (s : AlertState) (k : String) (c : Int) (now : Nat)
    (h : (shouldSendAlert s k c now).1 = false) :
    (shouldSendAlert s k c now).2 = s :=
  shouldSendAlert_suppress_state s k c now h

/-- Witness for C10: a key that fired at 60000 ms is suppressed at
120000 ms under a 60-minute cooldown, and the map is unchanged. -/
theorem shouldSendAlert_suppressed_frame_witness :
    (shouldSendAlert [("low_peers", 60000)] "low_peers" 60 120000).1 = false ∧
    (shouldSendAlert [("low_peers", 60000)] "low_peers" 60 120000).2
      = [("low_peers", 60000)] :=
  ⟨by decide, shouldSendAlert_suppressed_frame _ _ _ _ (by decide)⟩

/-! ## Claim theorem: the gate is the sole writer (C3) -/

theorem stepEv_inv (p : AlertState × List (String × Nat)) (e : GateEvent)
    (hp : GateInv p) : GateInv (stepEv p e) := by
  cases e with
  | clear key =>
      intro k t hk
      simp only [stepEv] at hk ⊢
      by_cases hkk : k = key
      · subst hkk
        rw [mapGet_mapDelete_self] at hk
        exact absurd hk (by simp)
      · exact hp k t (by rwa [mapGet_mapDelete_ne p.1 key k hkk] at hk)
  | check key c now =>
      intro k t hk
      simp only [stepEv] at hk ⊢
      cases hr : (shouldSendAlert p.1 key c now).1 with
      | true =>
          rw [shouldSendAlert_fire_state p.1 key c now hr] at hk
          by_cases hkk : k = key
          · subst hkk
            rw [mapGet_mapSet_self] at hk
            have ht : t = now := by injection hk with h; omega
            subst ht
            simp [hr]
          · rw [mapGet_mapSet_ne p.1 key k now hkk] at hk
            have hold := hp k t hk
            simpa [hr, List.filter_cons, Ne.symm hkk] using hold
      | false =>
          rw [shouldSendAlert_suppress_state p.1 key c now hr] at hk
          have hold := hp k t hk
          simpa [hr] using hold

theorem runFrom_inv (evs : List GateEvent) :
    ∀ p, GateInv p → GateInv (evs.foldl stepEv p) := by
  induction evs with
  | nil => intro p hp; simpa using hp
  | cons e t ih => intro p hp; exact ih _ (stepEv_inv p e hp)

/-- Claim C3: after any sequence of gate interactions (checks and clears,
which are the only operations the source performs on `lastAlerts`), every
key present in the alert state stores exactly the time of the most recent
notification emitted for that key: the gate is the sole writer of the
stored timestamps, each written at the moment it returns `true`, and no
notification for the key has been emitted since that timestamp was
written — in particular none while `now - timestamp` is still inside the
key's cooldown. -/
theorem alertState_sole_writer_invariant (evs : List GateEvent) (k : String) (t : Nat)
    (h : mapGet (runEvents evs).1 k = some t) :
    ((runEvents evs).2.filter (fun e => e.1 == k)).head? = some (k, t) := by
  have hinv : GateInv (runEvents evs) := by
    unfold runEvents
    refine runFrom_inv evs ([], []) ?_
    intro k' t' h'
    simp [mapGet] at h'
  exact hinv k t h

/-- Witness for C3: one fired check for `low_peers` stores 5000, and the
most recent `low_peers` notification in the log is the one at 5000. -/
theorem alertState_sole_writer_invariant_witness :
    mapGet (runEvents [GateEvent.check "low_peers" 30 5000]).1 "low_peers" = some 5000 ∧
    ((runEvents [GateEvent.check "low_peers" 30 5000]).2.filter
      (fun e => e.1 == "low_peers")).head? = some ("low_peers", 5000) :=
  ⟨by decide, alertState_sole_writer_invariant _ _ _ (by decide)⟩

/-! ## Claim theorem: reference consensus resolver (C4) -/

theorem foldl_max_mem (b : Int) (bs : List Int) : bs.foldl max b ∈ b :: bs := by
  induction bs generalizing b with
  | nil => simp
  | cons c cs ih =>
      rcases List.mem_cons.mp (ih (max b c)) with h1 | h1
      · rcases max_choice b c with hm | hm
        · rw [List.foldl_cons, h1, hm]
          exact List.mem_cons_self _ _
        · rw [List.foldl_cons, h1, hm]
          exact List.mem_cons_of_mem _ (List.mem_cons_self _ _)
      · rw [List.foldl_cons]
        exact List.mem_cons_of_mem _ (List.mem_cons_of_mem _ h1)

theorem le_foldl_max (b : Int) (bs : List Int) :
    ∀ x ∈ b :: bs, x ≤ bs.foldl max b := by
  induction bs generalizing b with
  | nil =>
      intro x hx
      rw [List.mem_singleton] at hx
      simp [hx]
  | cons c cs ih =>
      intro x hx
      rw [List.foldl_cons]
      rcases List.mem_cons.mp hx with h1 | h1
      · subst h1
        exact le_trans (le_max_left _ _) (ih _ _ (List.mem_cons_self _ _))
      · rcases List.mem_cons.mp h1 with h2 | h2
        · subst h2
          exact le_trans (le_max_right _ _) (ih _ _ (List.mem_cons_self _ _))
        · exact ih (max b c) x (List.mem_cons_of_mem _ h2)

/-- Claim C4: `getCanonicalBlock` returns the maximum height among the
successful reference responses when at least one succeeds, and fails
with the no-reference error when zero succeed; in particular endpoints
returning `[100, 105, failure]` yield canonical `105`. -/
theorem getCanonicalBlock_max_of_successes (results : List (Except String Int)) :
    (validBlocks results = [] →
        getCanonicalBlock results
          = .error "Failed to get canonical block from any reference RPC") ∧
    (∀ b bs, validBlocks results = b :: bs →
        getCanonicalBlock results = .ok (bs.foldl max b) ∧
        bs.foldl max b ∈ validBlocks results ∧
        ∀ x ∈ validBlocks results, x ≤ bs.foldl max b) ∧
    getCanonicalBlock [.ok 100, .ok 105, .error "timeout"] = .ok 105 := by
  refine ⟨?_, ?_, by decide⟩
  · intro h
    simp [getCanonicalBlock, h]
  · intro b bs h
    refine ⟨by simp [getCanonicalBlock, h], ?_, ?_⟩
    · rw [h]
      exact foldl_max_mem b bs
    · rw [h]
      exact le_foldl_max b bs

/-- Witness for C4: all references failing yields the no-reference
error. -/
theorem getCanonicalBlock_max_of_successes_witness :
    getCanonicalBlock [Except.error "boom"]
      = .error "Failed to get canonical block from any reference RPC" :=
  (getCanonicalBlock_max_of_successes [Except.error "boom"]).1 (by decide)

end EthMonitor

namespace EthMonitor

/-! ## Claim theorems: sync-lag probe (C5) -/

/-- Counterexample to C5 as stated: with local height 100 and canonical
height 99 the delay (canonical − local = −1) is at most 10 and not below
−5, so the claim requires OK, but the plain-variant sync probe
(`src/monitor.js:928-956`, one of the claim's cited sources) warns on any
negative delay and returns WARNING. -/
theorem checkSyncStatusPlain_negative_delay_warns :
    (checkSyncStatusPlain (.ok 100) [Except.ok 99]).status = .WARNING ∧
    (99 : Int) - 100 ≤ 10 ∧ ¬ ((99 : Int) - 100 < -5) := by
  exact ⟨by decide, by decide, by decide⟩

/-- Claim C5 (amended): the gated sync probe (`src/monitor.js:641-696`)
behaves as claimed — OK when −5 ≤ canonical − local ≤ 10, WARNING when
the delay exceeds 10, WARNING (implausibly ahead) when the delay is
strictly below −5 — and the spec's three examples hold for it; the plain
variant (`src/monitor.js:928-956`) uses 0 instead of −5 as the ahead
threshold: it returns WARNING whenever canonical − local < 0 and OK only
when 0 ≤ canonical − local ≤ 10. -/
theorem checkSyncStatus_lag_thresholds (st : AlertState) (now : Nat)
    (monitoredBlock canonicalBlock : Int) (refResults : List (Except String Int))
    (href : getCanonicalBlock refResults = .ok canonicalBlock) :
    (canonicalBlock - monitoredBlock > 10 →
        (checkSyncStatus st now (.ok monitoredBlock) refResults).1.status = .WARNING) ∧
    (canonicalBlock - monitoredBlock < -5 →
        (checkSyncStatus st now (.ok monitoredBlock) refResults).1.status = .WARNING) ∧
    (-5 ≤ canonicalBlock - monitoredBlock → canonicalBlock - monitoredBlock ≤ 10 →
        (checkSyncStatus st now (.ok monitoredBlock) refResults).1.status = .OK) ∧
    (canonicalBlock - monitoredBlock > 10 →
        (checkSyncStatusPlain (.ok monitoredBlock) refResults).status = .WARNING) ∧
    (canonicalBlock - monitoredBlock < 0 →
        (checkSyncStatusPlain (.ok monitoredBlock) refResults).status = .WARNING) ∧
    (0 ≤ canonicalBlock - monitoredBlock → canonicalBlock - monitoredBlock ≤ 10 →
        (checkSyncStatusPlain (.ok monitoredBlock) refResults).status = .OK) ∧
    (checkSyncStatus st now (.ok 100) [Except.ok 111]).1.status = .WARNING ∧
    (checkSyncStatus st now (.ok 105) [Except.ok 110]).1.status = .OK ∧
    (checkSyncStatus st now (.ok 116) [Except.ok 110]).1.status = .WARNING := by
  have h111 : getCanonicalBlock [Except.ok (111 : Int)] = .ok 111 := by decide
  have h110 : getCanonicalBlock [Except.ok (110 : Int)] = .ok 110 := by decide
  refine ⟨?_, ?_, ?_, ?_, ?_, ?_, ?_, ?_, ?_⟩
  · intro h
    simp only [checkSyncStatus, href, MAX_BLOCK_DELAY]
    rw [if_pos h]
  · intro h
    simp only [checkSyncStatus, href, MAX_BLOCK_DELAY]
    rw [if_neg (by omega), if_pos h]
  · intro h5 h10
    simp only [checkSyncStatus, href, MAX_BLOCK_DELAY]
    rw [if_neg (by omega), if_neg (by omega)]
  · intro h
    simp only [checkSyncStatusPlain, href, MAX_BLOCK_DELAY]
    rw [if_pos h]
  · intro h
    simp only [checkSyncStatusPlain, href, MAX_BLOCK_DELAY]
    rw [if_neg (by omega), if_pos h]
  · intro h0 h10
    simp only [checkSyncStatusPlain, href, MAX_BLOCK_DELAY]
    rw [if_neg (by omega), if_neg (by omega)]
  · simp only [checkSyncStatus, h111, MAX_BLOCK_DELAY]
    rw [if_pos (by decide)]
  · simp only [checkSyncStatus, h110, MAX_BLOCK_DELAY]
    rw [if_neg (by decide), if_neg (by decide)]
  · simp only [checkSyncStatus, h110, MAX_BLOCK_DELAY]
    rw [if_neg (by decide), if_pos (by decide)]

/-- Witness for C5 (amended), at the spec's OK example: local 105,
canonical 110. -/
theorem checkSyncStatus_lag_thresholds_witness :
    (checkSyncStatus [] 0 (.ok 105) [Except.ok 110]).1.status = .OK :=
  (checkSyncStatus_lag_thresholds [] 0 105 110 [Except.ok 110]
    (by decide)).2.2.1 (by decide) (by decide)

/-! ## Claim theorems: fork-consistency probe (C6) -/

/-- Counterexample to C6 as stated: monitored hash `0xAAA`, references
answering `0xBBB` then `0xAAA`.  The monitored hash equals the
same-height hash of a successfully queried reference (the second one),
so the claim requires OK, but the code compares only
`validReferenceBlocks[0]` and returns ERROR. -/
theorem checkBlockConsistency_second_reference_ignored :
    (checkBlockConsistency [] 0 (.ok (100, "0xAAA"))
        [Except.ok "0xBBB", Except.ok "0xAAA"]).1.status = .ERROR ∧
    "0xAAA" ∈ ([Except.ok "0xBBB", Except.ok "0xAAA"] :
        List (Except String String)).filterMap Except.toOption := by
  exact ⟨by decide, by decide⟩

/-- Claim C6 (amended): the fork probe examines the block 5 behind the
monitored tip and compares its monitored hash against the hash from the
FIRST successfully queried reference only: it returns OK exactly when
the monitored hash equals that first reference hash; on mismatch it
returns ERROR with a message reporting the examined block number and
both hashes; when zero references respond it returns an indeterminate
WARNING rather than a fork alert. -/
theorem checkBlockConsistency_first_reference_spec (st : AlertState) (now : Nat)
    (tip : Int) (monitoredHash : String) (refHashes : List (Except String String)) :
    (refHashes.filterMap Except.toOption = [] →
        (checkBlockConsistency st now (.ok (tip, monitoredHash)) refHashes).1 =
          ⟨.WARNING, "Could not verify block consistency with reference nodes"⟩) ∧
    (∀ referenceHash rest, refHashes.filterMap Except.toOption = referenceHash :: rest →
        ((checkBlockConsistency st now (.ok (tip, monitoredHash)) refHashes).1.status = .OK
            ↔ monitoredHash = referenceHash) ∧
        (monitoredHash ≠ referenceHash →
            (checkBlockConsistency st now (.ok (tip, monitoredHash)) refHashes).1 =
              ⟨.ERROR, blockHashMismatchMessage (tip - 5) monitoredHash referenceHash⟩)) := by
  refine ⟨?_, ?_⟩
  · intro h
    simp only [checkBlockConsistency, h]
  · intro referenceHash rest h
    by_cases hm : monitoredHash = referenceHash
    · refine ⟨⟨fun _ => hm, fun _ => ?_⟩, fun hne => absurd hm hne⟩
      simp only [checkBlockConsistency, h]
      rw [if_neg (by simp [hm])]
    · constructor
      · constructor
        · intro hst
          exfalso
          simp only [checkBlockConsistency, h] at hst
          rw [if_pos hm] at hst
          exact absurd hst (by simp)
        · intro he
          exact absurd he hm
      · intro hne
        simp only [checkBlockConsistency, h]
        rw [if_pos hne]

/-- Witness for C6 (amended): equal hashes against the single responding
reference give OK. -/
theorem checkBlockConsistency_first_reference_spec_witness :
    (checkBlockConsistency [] 0 (.ok (100, "0xAAA")) [Except.ok "0xAAA"]).1.status = .OK :=
  ((checkBlockConsistency_first_reference_spec [] 0 100 "0xAAA"
    [Except.ok "0xAAA"]).2 "0xAAA" [] (by decide)).1.mpr rfl

/-! ## Claim theorems: version comparison (C7) -/

theorem versionOutdated_spec (curr lat : Version) :
    versionOutdated curr lat = true ↔
      (curr.major < lat.major ∨
        (curr.major = lat.major ∧
          (curr.minor < lat.minor ∨
            (curr.minor = lat.minor ∧ curr.patch < lat.patch)))) := by
  simp [versionOutdated]

/-- Claim C7: version comparison parses each string as a
(major, minor, patch) integer triple and decides by the first differing
component left-to-right (the spec's lexical rule `versionOutdated`);
when either string fails to parse, the result is indeterminate
(`outdated = null`) and the alert guard does not fire; and the spec's
three examples hold, the minor/patch tiers surfacing as the code's
`warning` / `info` severities. -/
theorem compareVersions_lexicographic :
    (∀ current latest curr lat,
        parseVersion current = some curr → parseVersion latest = some lat →
        (compareVersions current latest).outdated = some (versionOutdated curr lat)) ∧
    (∀ current latest,
        parseVersion current = none ∨ parseVersion latest = none →
        (compareVersions current latest).outdated = none ∧
        versionAlertFires (compareVersions current latest) = false) ∧
    compareVersions "1.2.3" "1.3.0" = ⟨some true, some "warning", "Minor version behind"⟩ ∧
    compareVersions "1.2.3" "1.2.4" = ⟨some true, some "info", "Patch version behind"⟩ ∧
    compareVersions "2.0.0" "1.9.9" = ⟨some false, none, "Ahead of latest"⟩ := by
  refine ⟨?_, ?_, by decide, by decide, by decide⟩
  · intro current latest curr lat hc hl
    simp only [compareVersions, hc, hl]
    split_ifs with h1 h2 h3 h4 h5
    · have hv : versionOutdated curr lat = true := by
        rw [versionOutdated_spec]
        omega
      rw [hv]
    · have hv : versionOutdated curr lat = false := by
        rw [Bool.eq_false_iff, Ne, versionOutdated_spec]
        omega
      rw [hv]
    · have hv : versionOutdated curr lat = true := by
        rw [versionOutdated_spec]
        omega
      rw [hv]
    · have hv : versionOutdated curr lat = false := by
        rw [Bool.eq_false_iff, Ne, versionOutdated_spec]
        omega
      rw [hv]
    · have hv : versionOutdated curr lat = true := by
        rw [versionOutdated_spec]
        omega
      rw [hv]
    · have hv : versionOutdated curr lat = false := by
        rw [Bool.eq_false_iff, Ne, versionOutdated_spec]
        omega
      rw [hv]
  · intro current latest h
    rcases h with h | h
    · simp [compareVersions, h, versionAlertFires]
    · cases hc : parseVersion current with
      | none => simp [compareVersions, hc, versionAlertFires]
      | some c => simp [compareVersions, hc, h, versionAlertFires]

/-- Witness for C7 at the spec's minor-behind example. -/
theorem compareVersions_lexicographic_witness :
    (compareVersions "1.2.3" "1.3.0").outdated
      = some (versionOutdated ⟨1, 2, 3, "1.2.3"⟩ ⟨1, 3, 0, "1.3.0"⟩) :=
  compareVersions_lexicographic.1 "1.2.3" "1.3.0" _ _ (by decide) (by decide)

end EthMonitor

namespace EthMonitor

/-! ## Claim theorem: push-mode reconnection (C8) -/

/-- Claim C8: in push mode the reconnect delay computed for the n-th
reconnection attempt is capped exponential backoff
`min(1000 * 2 ^ n, 60000)` ms (base 1 s, factor 2, ceiling 60 s); once
the 10-attempt budget is exhausted the monitor emits one final critical
notification and exits with code 1; and a `wsClosed` with exhausted
budget is the only event/state combination whose dispatch terminates the
process — every other handler always yields `PushAction.cont`. -/
theorem pushStep_reconnect_backoff_exit :
    (∀ st : MonitorState, st.reconnectAttempts < maxReconnectAttempts →
        pushStep st .wsClosed =
          ({ st with reconnectAttempts := st.reconnectAttempts + 1 }, [],
            .scheduleReconnect (min (1000 * 2 ^ (st.reconnectAttempts + 1)) 60000))) ∧
    (∀ st : MonitorState, maxReconnectAttempts ≤ st.reconnectAttempts →
        pushStep st .wsClosed =
          (st, [⟨"*Monitor Connection Failed*\n\nFailed to reconnect after " ++
              toString maxReconnectAttempts ++ " attempts", "critical"⟩],
            .exitProcess 1)) ∧
    (∀ (st : MonitorState) (e : PushEvent) (code : Nat),
        (pushStep st e).2.2 = .exitProcess code →
        e = .wsClosed ∧ maxReconnectAttempts ≤ st.reconnectAttempts ∧ code = 1 ∧
        ∃ n ∈ (pushStep st e).2.1, n.severity = "critical") := by
  refine ⟨?_, ?_, ?_⟩
  · intro st h
    simp only [pushStep, reconnect]
    rw [if_neg (Nat.not_le.mpr h)]
  · intro st h
    simp only [pushStep, reconnect]
    rw [if_pos h]
  · intro st e code hc
    cases e with
    | newBlock bn now refs mi mc m rc rl lc ll => simp [pushStep] at hc
    | consensusTick now cfg health => simp [pushStep] at hc
    | heartbeatTick now => simp [pushStep] at hc
    | wsError now => simp [pushStep] at hc
    | wsClosed =>
        simp only [pushStep, reconnect] at hc ⊢
        by_cases h : maxReconnectAttempts ≤ st.reconnectAttempts
        · rw [if_pos h] at hc ⊢
          simp only at hc
          refine ⟨trivial, h, ?_, ?_⟩
          · injection hc with h1
            omega
          · exact ⟨_, List.mem_cons_self _ _, rfl⟩
        · rw [if_neg h] at hc
          simp at hc

/-- Witness for C8: with 2 attempts made, closing schedules the 3rd
attempt after `min(1000 * 2 ^ 3, 60000) = 8000` ms; with 10 attempts
made, closing emits the final critical notification and exits 1. -/
theorem pushStep_reconnect_backoff_exit_witness :
    pushStep ⟨[], 0, 0, 0, 0, true, 2⟩ .wsClosed =
      (⟨[], 0, 0, 0, 0, true, 3⟩, [], .scheduleReconnect (min (1000 * 2 ^ 3) 60000)) ∧
    pushStep ⟨[], 0, 0, 0, 0, true, 10⟩ .wsClosed =
      (⟨[], 0, 0, 0, 0, true, 10⟩,
        [⟨"*Monitor Connection Failed*\n\nFailed to reconnect after " ++
            toString maxReconnectAttempts ++ " attempts", "critical"⟩],
        .exitProcess 1) :=
  ⟨pushStep_reconnect_backoff_exit.1 ⟨[], 0, 0, 0, 0, true, 2⟩ (by decide),
    pushStep_reconnect_backoff_exit.2.1 ⟨[], 0, 0, 0, 0, true, 10⟩ (by decide)⟩

/-! ## Claim theorem: one-shot aggregation (C9) -/

theorem resultHasError_false_iff (r : Except String ProbeResult) :
    resultHasError r = false ↔
      ∃ p, r = Except.ok p ∧ (p.status = .OK ∨ p.status = .WARNING) := by
  cases r with
  | error e => simp [resultHasError]
  | ok p =>
      cases hp : p.status with
      | OK => simp [resultHasError, hp]
      | WARNING => simp [resultHasError, hp]
      | ERROR => simp [resultHasError, hp]

/-- Claim C9: a one-shot run aggregates worst-wins
(ERROR > WARNING > OK): the exit code is 1 exactly when at least one
probe returned ERROR or threw, and 0 exactly when every probe returned
OK or WARNING; the overall status line is CRITICAL in the presence of an
error, else WARNING in the presence of a warning, else HEALTHY. -/
theorem runChecks_worst_wins_exit (results : List (Except String ProbeResult)) :
    ((runChecks results).2 = 1 ↔ ∃ r ∈ results, resultHasError r = true) ∧
    ((runChecks results).2 = 0 ↔
        ∀ r ∈ results, ∃ p, r = Except.ok p ∧ (p.status = .OK ∨ p.status = .WARNING)) ∧
    ((∃ r ∈ results, resultHasError r = true) →
        (runChecks results).1 = "STATUS: CRITICAL - Errors detected") ∧
    ((∀ r ∈ results, resultHasError r = false) →
        (∃ r ∈ results, resultHasWarning r = true) →
        (runChecks results).1 = "STATUS: WARNING - Some checks raised warnings") ∧
    ((∀ r ∈ results, resultHasError r = false) →
        (∀ r ∈ results, resultHasWarning r = false) →
        (runChecks results).1 = "STATUS: HEALTHY - All checks passed") := by
  by_cases he : results.any resultHasError = true
  · have hrc : runChecks results = ("STATUS: CRITICAL - Errors detected", 1) := by
      simp [runChecks, he]
    obtain ⟨r, hr, hre⟩ := List.any_eq_true.mp he
    refine ⟨?_, ?_, ?_, ?_, ?_⟩
    · rw [hrc]
      exact ⟨fun _ => ⟨r, hr, hre⟩, fun _ => rfl⟩
    · rw [hrc]
      constructor
      · intro h
        exact absurd h (by decide)
      · intro h
        exfalso
        have hfalse : resultHasError r = false := (resultHasError_false_iff r).mpr (h r hr)
        rw [hre] at hfalse
        exact absurd hfalse (by decide)
    · intro _
      rw [hrc]
    · intro hall _
      exfalso
      have hfalse := hall r hr
      rw [hre] at hfalse
      exact absurd hfalse (by decide)
    · intro hall _
      exfalso
      have hfalse := hall r hr
      rw [hre] at hfalse
      exact absurd hfalse (by decide)
  · have he' : results.any resultHasError = false := by
      cases hany : results.any resultHasError with
      | true => exact absurd hany he
      | false => rfl
    have hallf : ∀ r ∈ results, resultHasError r = false := by
      intro r hr
      cases hv : resultHasError r with
      | true => exact absurd (List.any_eq_true.mpr ⟨r, hr, hv⟩) he
      | false => rfl
    by_cases hw : results.any resultHasWarning = true
    · have hrc : runChecks results
          = ("STATUS: WARNING - Some checks raised warnings", 0) := by
        simp [runChecks, he', hw]
      refine ⟨?_, ?_, ?_, ?_, ?_⟩
      · rw [hrc]
        constructor
        · intro h
          exact absurd h (by decide)
        · intro ⟨r, hr, hre⟩
          exfalso
          have := hallf r hr
          rw [hre] at this
          exact absurd this (by decide)
      · rw [hrc]
        exact ⟨fun _ r hr => (resultHasError_false_iff r).mp (hallf r hr), fun _ => rfl⟩
      · intro ⟨r, hr, hre⟩
        exfalso
        have := hallf r hr
        rw [hre] at this
        exact absurd this (by decide)
      · intro _ _
        rw [hrc]
      · intro _ hnw
        exfalso
        obtain ⟨r, hr, hrw⟩ := List.any_eq_true.mp hw
        have := hnw r hr
        rw [hrw] at this
        exact absurd this (by decide)
    · have hw' : results.any resultHasWarning = false := by
        cases hany : results.any resultHasWarning with
        | true => exact absurd hany hw
        | false => rfl
      have hrc : runChecks results = ("STATUS: HEALTHY - All checks passed", 0) := by
        simp [runChecks, he', hw']
      refine ⟨?_, ?_, ?_, ?_, ?_⟩
      · rw [hrc]
        constructor
        · intro h
          exact absurd h (by decide)
        · intro ⟨r, hr, hre⟩
          exfalso
          have := hallf r hr
          rw [hre] at this
          exact absurd this (by decide)
      · rw [hrc]
        exact ⟨fun _ r hr => (resultHasError_false_iff r).mp (hallf r hr), fun _ => rfl⟩
      · intro ⟨r, hr, hre⟩
        exfalso
        have := hallf r hr
        rw [hre] at this
        exact absurd this (by decide)
      · intro _ ⟨r, hr, hrw⟩
        exfalso
        have : resultHasWarning r = false := by
          cases hv : resultHasWarning r with
          | true => exact absurd (List.any_eq_true.mpr ⟨r, hr, hv⟩) hw
          | false => rfl
        rw [hrw] at this
        exact absurd this (by decide)
      · intro _ _
        rw [hrc]

/-- Witness for C9: a warning plus a thrown check exits 1. -/
theorem runChecks_worst_wins_exit_witness :
    (runChecks [Except.ok ⟨ProbeStatus.WARNING, "w"⟩, Except.error "boom"]).2 = 1 :=
  (runChecks_worst_wins_exit _).1.mpr ⟨Except.error "boom", by decide, by decide⟩

end EthMonitor
